import Mathlib

set_option maxRecDepth 8000

/-!  Verification of the URL handling, CSS rewriting, HTML rewriting and
request-handler decision logic of the rewriting HTTP proxy in
src/server.js.  JavaScript platform primitives the source leans on
(the WHATWG URL class, encodeURIComponent, the one regex the source
uses, cheerio attribute editing) are modelled explicitly; the source's
own functions are translated clause by clause.  The URL model follows
the WHATWG basic URL parser restricted to the shapes the program
exercises: input trimming, percent-encoding of path/query code points,
backslash-as-slash for special schemes, punycode, and the lenient
same-special-scheme relative form ("http:foo" against an http base)
are not modelled. -/

/-- The single-quote character (U+0027). -/
def squoteC : Char := Char.ofNat 39

/-- The double-quote character (U+0022). -/
def dquoteC : Char := Char.ofNat 34

/-- Does the needle (first argument) appear at the head of the haystack? -/
def leadsWith : List Char → List Char → Bool
  | [], _ => true
  | _ :: _, [] => false
  | a :: as, b :: bs => (a == b) && leadsWith as bs

/-- JavaScript String.prototype.startsWith. -/
def jsStartsWith (s p : String) : Bool := leadsWith p.data s.data

/-- Does the needle occur as a contiguous substring of the haystack? -/
def hasSub (ndl : List Char) : List Char → Bool
  | [] => leadsWith ndl []
  | c :: t => leadsWith ndl (c :: t) || hasSub ndl t

/-- JavaScript String.prototype.includes. -/
def strContains (hay ndl : String) : Bool := hasSub ndl.data hay.data

/-- Split at the first occurrence of a character: text before it, and
the text after it when the character occurs at all. -/
def splitAtChar (ch : Char) : List Char → List Char × Option (List Char)
  | [] => ([], none)
  | c :: t =>
    if c == ch then ([], some t)
    else
      let p := splitAtChar ch t
      (c :: p.1, p.2)

/-- Split a character list on every occurrence of a separator
(the analogue of String.prototype.split with a one-char separator). -/
def splitAll (ch : Char) : List Char → List (List Char)
  | [] => [[]]
  | c :: t =>
    let r := splitAll ch t
    if c == ch then [] :: r
    else
      match r with
      | [] => [[c]]
      | h :: rs => (c :: h) :: rs

/-- WHATWG path-state dot-segment handling: fold the raw segments of a
path onto an accumulator, where ".." pops a segment and "." is
dropped; a trailing "." or ".." leaves a trailing empty segment. -/
def normSegs : List String → List String → List String
  | acc, [] => acc
  | acc, [s] =>
    if s = ".." then acc.dropLast ++ [""]
    else if s = "." then acc ++ [""]
    else acc ++ [s]
  | acc, s :: rest =>
    if s = ".." then normSegs acc.dropLast rest
    else if s = "." then normSegs acc rest
    else normSegs (acc ++ [s]) rest

/-- Characters allowed after the first character of a URL scheme. -/
def schemeTailChar (c : Char) : Bool :=
  c.isAlphanum || c == '+' || c == '-' || c == '.'

/-- ASCII-lowercase a character list. -/
def lowerStr (s : List Char) : List Char := s.map Char.toLower

/-- Split "scheme:rest" into the lowercased scheme and the rest;
fails when the input does not begin with a well-formed scheme. -/
def splitScheme (s : String) : Option (String × List Char) :=
  match s.data with
  | [] => none
  | c :: rest =>
    if c.isAlpha then
      let tl := rest.takeWhile schemeTailChar
      let rest2 := rest.dropWhile schemeTailChar
      match rest2 with
      | colon :: r => if colon == ':' then some (String.mk (lowerStr (c :: tl)), r) else none
      | [] => none
    else none

/-- The WHATWG special schemes. -/
def isSpecial (sch : String) : Bool :=
  ["http", "https", "ws", "wss", "ftp", "file"].contains sch

/-- Default port of a special scheme. -/
def defaultPort (sch : String) : Option Nat :=
  if sch = "http" then some 80
  else if sch = "https" then some 443
  else if sch = "ws" then some 80
  else if sch = "wss" then some 443
  else if sch = "ftp" then some 21
  else none

/-- A parsed URL record.  `hier` distinguishes a hierarchical path
(stored in `pathSegs`) from a cannot-be-a-base path such as the body
of a data: URL (stored in `rawPath`). -/
structure UrlRec where
  scheme : String
  hasAuth : Bool
  host : String
  port : Option Nat
  hier : Bool
  pathSegs : List String
  rawPath : String
  query : Option String
  fragment : Option String
deriving DecidableEq, Repr

/-- WHATWG forbidden host code points (plus controls and space);
'%' is rejected rather than percent-decoded in this model. -/
def forbiddenHostChar (c : Char) : Bool :=
  c.toNat ≤ 32 || c == '#' || c == '/' || c == '?' || c == '@' || c == ':' ||
  c == '<' || c == '>' || c == '[' || c == ']' || c == '^' || c == '|' ||
  c == '%' || c == dquoteC || c == Char.ofNat 92

/-- Digits to a natural number. -/
def natOfDigits (l : List Char) : Nat :=
  l.foldl (fun acc c => acc * 10 + (c.toNat - 48)) 0

/-- Validate and normalize a host and optional port: special schemes
need a nonempty host, forbidden characters fail, the host is
lowercased, and a default port is dropped. -/
def mkHost (special : Bool) (sch : String) (h : List Char) (port : Option Nat) :
    Option (String × Option Nat) :=
  if h = [] then (if special then none else some ("", port))
  else if h.any forbiddenHostChar then none
  else
    let host := String.mk (lowerStr h)
    let port2 := if port = defaultPort sch then none else port
    some (host, port2)

/-- Parse an authority (userinfo stripped at the last '@', port split
at ':', port must be digits and at most 65535). -/
def parseHostPort (special : Bool) (sch : String) (auth : List Char) :
    Option (String × Option Nat) :=
  let hp := (splitAll '@' auth).getLastD []
  match splitAll ':' hp with
  | [h] => mkHost special sch h none
  | [h, p] =>
    if p.all Char.isDigit then
      if p = [] then mkHost special sch h none
      else
        let n := natOfDigits p
        if n > 65535 then none else mkHost special sch h (some n)
    else none
  | _ => none

/-- Parse the part of a URL after "scheme://": authority, then path,
query and fragment. -/
def parseHier (special : Bool) (sch : String) (s : List Char) : Option UrlRec :=
  let notDelim : Char → Bool := fun c => !(c == '/' || c == '?' || c == '#')
  let auth := s.takeWhile notDelim
  let rest := s.dropWhile notDelim
  match parseHostPort special sch auth with
  | none => none
  | some (host, port) =>
    let bf := (splitAtChar '#' rest).1
    let frag := (splitAtChar '#' rest).2
    let bq := (splitAtChar '?' bf).1
    let qry := (splitAtChar '?' bf).2
    let segs : List String :=
      match bq with
      | [] => if special then [""] else []
      | _ :: r => normSegs [] ((splitAll '/' r).map String.mk)
    some { scheme := sch, hasAuth := true, host := host, port := port, hier := true,
           pathSegs := segs, rawPath := "", query := qry.map String.mk,
           fragment := frag.map String.mk }

/-- Parse what follows "scheme:".  Special schemes require "//"
(the lenient slashless special form is not modelled); other schemes
without "//" get a cannot-be-a-base raw path. -/
def parseAfterScheme (sch : String) (rest : List Char) : Option UrlRec :=
  match rest with
  | '/' :: '/' :: r => parseHier (isSpecial sch) sch r
  | _ =>
    if isSpecial sch then none
    else
      let bf := (splitAtChar '#' rest).1
      let frag := (splitAtChar '#' rest).2
      let bq := (splitAtChar '?' bf).1
      let qry := (splitAtChar '?' bf).2
      some { scheme := sch, hasAuth := false, host := "", port := none, hier := false,
             pathSegs := [], rawPath := String.mk bq, query := qry.map String.mk,
             fragment := frag.map String.mk }

/-- One-argument WHATWG URL constructor: new URL(s). -/
def parseUrl (s : String) : Option UrlRec :=
  match splitScheme s with
  | none => none
  | some (sch, rest) => parseAfterScheme sch rest

/-- Resolve a schemeless reference against a parsed base
(WHATWG relative state). -/
def resolveRel (input : String) (base : UrlRec) : Option UrlRec :=
  if base.hier = false then
    match input.data with
    | [] => some { base with fragment := none }
    | '#' :: r => some { base with fragment := some (String.mk r) }
    | _ => none
  else
    match input.data with
    | [] => some { base with fragment := none }
    | '#' :: r => some { base with fragment := some (String.mk r) }
    | '?' :: r =>
      let bf := (splitAtChar '#' r).1
      let frag := (splitAtChar '#' r).2
      some { base with query := some (String.mk bf), fragment := frag.map String.mk }
    | '/' :: '/' :: r => parseHier (isSpecial base.scheme) base.scheme r
    | l =>
      let bf := (splitAtChar '#' l).1
      let frag := (splitAtChar '#' l).2
      let bq := (splitAtChar '?' bf).1
      let qry := (splitAtChar '?' bf).2
      match bq with
      | '/' :: r =>
        some { base with pathSegs := normSegs [] ((splitAll '/' r).map String.mk),
                         query := qry.map String.mk, fragment := frag.map String.mk }
      | _ =>
        some { base with pathSegs := normSegs base.pathSegs.dropLast
                           ((splitAll '/' bq).map String.mk),
                         query := qry.map String.mk, fragment := frag.map String.mk }

/-- Two-argument WHATWG URL constructor: new URL(input, base).  The
base is parsed first and a bad base fails even for an absolute input,
exactly as the constructor throws. -/
def newURL (input base : String) : Option UrlRec :=
  match parseUrl base with
  | none => none
  | some b =>
    match splitScheme input with
    | some (sch, rest) => parseAfterScheme sch rest
    | none => resolveRel input b

/-- Serialize the path of a URL record. -/
def serializePath (u : UrlRec) : String :=
  if u.hier then String.join (u.pathSegs.map (fun seg => "/" ++ seg))
  else u.rawPath

/-- WHATWG URL serializer (what URL.prototype.toString returns). -/
def serializeUrl (u : UrlRec) : String :=
  u.scheme ++ ":" ++
  (if u.hasAuth then
      "//" ++ u.host ++ (match u.port with
        | some p => ":" ++ toString p
        | none => "")
    else "") ++
  serializePath u ++
  (match u.query with | some q => "?" ++ q | none => "") ++
  (match u.fragment with | some f => "#" ++ f | none => "")

/-- URL.prototype.protocol: the scheme followed by ':'. -/
def protocolOf (u : UrlRec) : String := u.scheme ++ ":"

/-- URL.prototype.host: hostname plus any explicit port. -/
def hostOf (u : UrlRec) : String :=
  u.host ++ (match u.port with | some p => ":" ++ toString p | none => "")

/-- URL.prototype.hostname. -/
def hostnameOf (u : UrlRec) : String := u.host

/-- The scheme+host string the source calls baseHost:
`${urlObj.protocol}//${urlObj.host}` (src/server.js lines 146, 352). -/
def baseHostOf (u : UrlRec) : String := protocolOf u ++ "//" ++ hostOf u

/-- Hexadecimal digit (uppercase). -/
def hexDigit (n : Nat) : Char :=
  if n < 10 then Char.ofNat (48 + n) else Char.ofNat (55 + n)

/-- "%XY" for one byte. -/
def byteHex (b : Nat) : List Char := ['%', hexDigit (b / 16), hexDigit (b % 16)]

/-- UTF-8 bytes of a code point. -/
def utf8Bytes (n : Nat) : List Nat :=
  if n < 128 then [n]
  else if n < 2048 then [192 + n / 64, 128 + n % 64]
  else if n < 65536 then [224 + n / 4096, 128 + (n / 64) % 64, 128 + n % 64]
  else [240 + n / 262144, 128 + (n / 4096) % 64, 128 + (n / 64) % 64, 128 + n % 64]

/-- The characters ECMAScript encodeURIComponent leaves unescaped. -/
def uriUnreserved (c : Char) : Bool :=
  c.isAlphanum || c == '-' || c == '_' || c == '.' || c == '!' || c == '~' ||
  c == '*' || c == squoteC || c == '(' || c == ')'

/-- encodeURIComponent on one character. -/
def encCharL (c : Char) : List Char :=
  if uriUnreserved c then [c] else List.flatten ((utf8Bytes c.toNat).map byteHex)

/-- ECMAScript encodeURIComponent. -/
def encodeURIComponent (s : String) : String :=
  String.mk (List.flatten (s.data.map encCharL))

/-- src/server.js lines 232-238 (resolveUrl): resolve a reference
against a base with the URL constructor; when the constructor throws,
return the reference unchanged. -/
def resolveUrl (url base : String) : String :=
  match newURL url base with
  | some u => serializeUrl u
  | none => url

/-- src/server.js lines 241-248 (isValidUrl): parse and require an
http(s) protocol; false when the constructor throws. -/
def isValidUrl (s : String) : Bool :=
  match parseUrl s with
  | some u => ["http:", "https:"].contains (protocolOf u)
  | none => false

/-- src/server.js lines 252-256 (blockedDomains). -/
def blockedDomains : List String := ["malware-site.com", "dangerous-site.net"]

/-- src/server.js lines 251-264 (isBlockedUrl): true iff the hostname
contains some blocked domain as a substring; false when the
constructor throws. -/
def isBlockedUrl (url : String) : Bool :=
  match parseUrl url with
  | some u => blockedDomains.any (fun d => strContains (hostnameOf u) d)
  | none => false

/-- JavaScript regex \s (the ASCII part: space, tab, LF, VT, FF, CR). -/
def jsWs (c : Char) : Bool :=
  c == ' ' || c == '\t' || c == '\n' || c == '\r' || c == Char.ofNat 11 || c == Char.ofNat 12

/-- The character class excluding quotes and the closing parenthesis
in the source regex (the inner url value). -/
def urlInnerChar (c : Char) : Bool := !(c == squoteC || c == dquoteC || c == ')')

/-- Matcher for the source regex (case-insensitive "url", optional
whitespace, '(', optional whitespace, an optionally quoted nonempty
run of characters outside the quote/parenthesis class, the matching
closing quote, optional whitespace, ')') at the head of the input.
Returns the number of characters the match consumes, the quote (as a
string: empty, single or double quote) and the inner value.  In the
unquoted form any whitespace before ')' is part of the greedy inner
run, as it is for the backtracking regex engine. -/
def tryMatchUrl (s : List Char) : Option (Nat × String × List Char) :=
  match s with
  | cu :: cr :: cl :: r3 =>
    if cu.toLower == 'u' && cr.toLower == 'r' && cl.toLower == 'l' then
      let ws1 := r3.takeWhile jsWs
      let r4 := r3.dropWhile jsWs
      match r4 with
      | '(' :: r5 =>
        let ws2 := r5.takeWhile jsWs
        let r6 := r5.dropWhile jsWs
        match r6 with
        | q :: r7 =>
          if q == squoteC || q == dquoteC then
            let inner := r7.takeWhile urlInnerChar
            let r8 := r7.dropWhile urlInnerChar
            if inner.isEmpty then none
            else
              match r8 with
              | q2 :: r9 =>
                if q2 == q then
                  let ws3 := r9.takeWhile jsWs
                  let r10 := r9.dropWhile jsWs
                  match r10 with
                  | ')' :: _ =>
                    some (3 + ws1.length + 1 + ws2.length + 1 + inner.length + 1 +
                            ws3.length + 1, String.mk [q], inner)
                  | _ => none
                else none
              | [] => none
          else
            let inner := r6.takeWhile urlInnerChar
            let r8 := r6.dropWhile urlInnerChar
            if inner.isEmpty then none
            else
              match r8 with
              | ')' :: _ => some (3 + ws1.length + 1 + ws2.length + inner.length + 1, "", inner)
              | _ => none
        | [] => none
      | _ => none
    else none
  | _ => none

/-- The replacement callback of src/server.js lines 222-228: leave a
data: or http-prefixed url argument unchanged, otherwise resolve it
and wrap it into the single-resource proxy endpoint, keeping the
quote style. -/
def cssReplace (matched quote url baseUrl : String) : String :=
  if jsStartsWith url "data:" || jsStartsWith url "http" then matched
  else
    "url(" ++ quote ++ "/api/proxy?url=" ++ encodeURIComponent (resolveUrl url baseUrl) ++
      quote ++ ")"

/-- Global regex replace: at each position try the matcher; on a match
emit the replacement and continue after the matched text, otherwise
copy one character.  Fuel is the input length (every step consumes at
least one character). -/
def scanCss (baseUrl : String) : Nat → List Char → List Char
  | 0, s => s
  | _ + 1, [] => []
  | fuel + 1, c :: rest =>
    match tryMatchUrl (c :: rest) with
    | some (n, q, inner) =>
      (cssReplace (String.mk ((c :: rest).take n)) q (String.mk inner) baseUrl).data ++
        scanCss baseUrl fuel ((c :: rest).drop n)
    | none => c :: scanCss baseUrl fuel rest

/-- src/server.js lines 220-229 (processCss): rewrite every url(...)
occurrence of a stylesheet. -/
def processCss (css baseUrl : String) : String :=
  String.mk (scanCss baseUrl css.data.length css.data)

/-- Does every url(...) match of the input have an inner value
starting with "data:" or "http"?  Mirrors the scan of processCss. -/
def cssExemptAux : Nat → List Char → Bool
  | 0, _ => true
  | _ + 1, [] => true
  | fuel + 1, c :: rest =>
    match tryMatchUrl (c :: rest) with
    | some (n, _, inner) =>
      (jsStartsWith (String.mk inner) "data:" || jsStartsWith (String.mk inner) "http") &&
        cssExemptAux fuel ((c :: rest).drop n)
    | none => cssExemptAux fuel rest

/-- Every url(...) occurrence of the stylesheet is a data: or
http-prefixed argument. -/
def cssAllExempt (css : String) : Bool := cssExemptAux css.data.length css.data

/-- src/server.js lines 75-77: the validateStatus of the resource-mode
axios config. -/
def validateStatus (status : Nat) : Bool := decide (status < 500)

/-- Modelled from the axios dependency contract (axios is not repo
code): a response whose status makes config.validateStatus return
false makes the request promise reject, so control reaches the catch
block; otherwise the response is resolved normally and its own status
and body are forwarded. -/
def upstreamReturnedAsNormal (status : Nat) : Bool := validateStatus status

/-- src/server.js lines 41-54: the pre-fetch validation of the
resource-mode handler POST /api/proxy.  Returns the early JSON error
(status, message), or none when the request proceeds to the fetch.
A missing url and the empty string are both falsy for !url. -/
def apiProxyPrecheck (url : Option String) : Option (Nat × String) :=
  match url with
  | none => some (400, "유효하지 않은 URL입니다.")
  | some u =>
    if u = "" then some (400, "유효하지 않은 URL입니다.")
    else if !isValidUrl u then some (400, "유효하지 않은 URL입니다.")
    else if isBlockedUrl u then some (403, "이 URL은 차단되었습니다.")
    else none

/-- src/server.js lines 118-139: the catch block of POST /api/proxy,
mapping the Node error code of the failed fetch to the JSON error
response (statusCode starts at 500 and is refined for the three
recognized transport codes). -/
def apiProxyCatch (code : Option String) : Nat × String :=
  if code = some "ENOTFOUND" then (404, "웹사이트를 찾을 수 없습니다.")
  else if code = some "ECONNREFUSED" then (503, "웹사이트에 연결할 수 없습니다.")
  else if code = some "ETIMEDOUT" then (408, "요청 시간이 초과되었습니다.")
  else (500, "웹사이트를 로드할 수 없습니다.")

/-- The 400 page for a missing url parameter (src/server.js lines
271-276; template whitespace elided). -/
def missingUrlPage : String :=
  "<h1>❌ 오류</h1><p>URL 파라미터가 필요합니다.</p><p><a href=\"/\">홈으로 돌아가기</a></p>"

/-- The 400 page for an invalid url (src/server.js lines 279-284;
template whitespace elided). -/
def invalidUrlPage (url : String) : String :=
  "<h1>❌ 유효하지 않은 URL</h1><p>올바른 URL을 입력해주세요: <strong>" ++ url ++
    "</strong></p><p><a href=\"/\">홈으로 돌아가기</a></p>"

/-- Outcome of the page-mode pre-fetch checks: an immediate rendered
error page, or a go-ahead to fetch the upstream. -/
inductive PageOutcome where
  | errorPage (status : Nat) (body : String)
  | fetchUpstream (url : String)
deriving DecidableEq

/-- src/server.js lines 267-306: the pre-fetch decision of the
page-mode handler GET /proxy-page.  The handler checks only for a
missing and an invalid url; it performs no isBlockedUrl check before
fetching. -/
def proxyPagePrecheck (url : Option String) : PageOutcome :=
  match url with
  | none => .errorPage 400 missingUrlPage
  | some u =>
    if u = "" then .errorPage 400 missingUrlPage
    else if !isValidUrl u then .errorPage 400 (invalidUrlPage u)
    else .fetchUpstream u

/-- The error page rendered by the catch of GET /proxy-page
(src/server.js lines 332-344; template whitespace elided). -/
def pageErrorHtml (url errMsg : String) : String :=
  "<h1>🚨 연결 실패</h1><p><strong>" ++ url ++
    "</strong>에 연결할 수 없습니다.</p><p>오류: " ++ errMsg ++
    "</p><br><p>💡 다른 방법들:</p><ul><li>URL이 정확한지 확인해보세요</li>" ++
    "<li>https:// 를 붙여보세요</li><li>사이트가 일시적으로 다운되었을 수 있습니다</li>" ++
    "</ul><p><a href=\"/\">← 홈으로 돌아가기</a></p>"

/-- src/server.js lines 329-345: the catch of GET /proxy-page replies
with status 500 and the rendered error page, for every error. -/
def proxyPageCatch (url errMsg : String) : Nat × String := (500, pageErrorHtml url errMsg)

/-- If every url(...) match of the input is exempt (data: or http
prefixed), the scan reproduces the input. -/
theorem scanCss_exempt (b : String) :
    ∀ fuel s, cssExemptAux fuel s = true → scanCss b fuel s = s := by
  intro fuel
  induction fuel with
  | zero => intro s _; rfl
  | succ fuel ih =>
    intro s h
    match s with
    | [] => rfl
    | c :: rest =>
      cases htm : tryMatchUrl (c :: rest) with
      | none =>
        rw [cssExemptAux] at h
        rw [htm] at h
        rw [scanCss, htm]
        rw [ih rest h]
      | some v =>
        obtain ⟨n, q, inner⟩ := v
        rw [cssExemptAux] at h
        rw [htm] at h
        rw [Bool.and_eq_true] at h
        rw [scanCss, htm]
        simp only [cssReplace]
        rw [if_pos h.1]
        rw [ih _ h.2]
        exact List.take_append_drop n (c :: rest)


mutual
/-- A node of the cheerio document tree: an element with a lowercase
tag name, its attribute list and children; parsed text; or an injected
template snippet kept as one opaque chunk (the source only splices
those strings in, and nothing proved here reads into them). -/
inductive HNode where
  | elem : String → List (String × String) → HNodeList → HNode
  | text : String → HNode
  | raw : String → HNode

/-- A list of sibling nodes. -/
inductive HNodeList where
  | nil : HNodeList
  | cons : HNode → HNodeList → HNodeList
end

/-- cheerio attr(name): the value of the attribute when present. -/
def getAttr (attrs : List (String × String)) (k : String) : Option String :=
  match attrs.find? (fun p => p.1 == k) with
  | some p => some p.2
  | none => none

/-- cheerio attr(name, value): overwrite an existing attribute in
place, or append a new one. -/
def setAttr (attrs : List (String × String)) (k v : String) : List (String × String) :=
  if attrs.any (fun p => p.1 == k) then
    attrs.map (fun p => if p.1 == k then (k, v) else p)
  else attrs ++ [(k, v)]

mutual
/-- Apply a tag-aware attribute rewrite to every element of a node
(one selector pass of the source: the pass visits every element and
the per-element callback decides by tag and attributes). -/
def mapN (f : String → List (String × String) → List (String × String)) : HNode → HNode
  | .elem t a c => .elem t (f t a) (mapL f c)
  | .text s => .text s
  | .raw s => .raw s

/-- mapN over a sibling list. -/
def mapL (f : String → List (String × String) → List (String × String)) :
    HNodeList → HNodeList
  | .nil => .nil
  | .cons n ns => .cons (mapN f n) (mapL f ns)
end

mutual
/-- Number of elements with the given tag in a node ($('tag').length). -/
def countTagN (tag : String) : HNode → Nat
  | .elem t _ c => (if t = tag then 1 else 0) + countTagL tag c
  | .text _ => 0
  | .raw _ => 0

/-- countTagN over a sibling list. -/
def countTagL (tag : String) : HNodeList → Nat
  | .nil => 0
  | .cons n ns => countTagN tag n + countTagL tag ns
end

/-- The cheerio-loaded document: the children of head and of body
(cheerio.load always materializes the html/head/body skeleton). -/
structure HtmlDoc where
  head : HNodeList
  body : HNodeList

/-- Number of elements with the given tag in the whole document. -/
def countTagDoc (tag : String) (d : HtmlDoc) : Nat :=
  countTagL tag d.head + countTagL tag d.body

/-- Apply one selector pass to the whole document. -/
def mapDoc (f : String → List (String × String) → List (String × String))
    (d : HtmlDoc) : HtmlDoc :=
  { head := mapL f d.head, body := mapL f d.body }

/-- Append one node at the end of a sibling list ($(x).append). -/
def appendL : HNodeList → HNode → HNodeList
  | .nil, n => .cons n .nil
  | .cons h t, n => .cons h (appendL t n)

/-- The first child of head. -/
def headFirst (d : HtmlDoc) : Option HNode :=
  match d.head with
  | .nil => none
  | .cons n _ => some n

/-- The a[href] pass of processHtml (src/server.js lines 149-156):
rewrite the href into the resource endpoint and force target=_parent.
An attribute that is absent, or present but empty, is falsy for
`if (href)` and leaves the element alone. -/
def updARes (baseUrl tag : String) (a : List (String × String)) : List (String × String) :=
  if tag = "a" then
    match getAttr a "href" with
    | some href =>
      if href ≠ "" then
        setAttr
          (setAttr a "href" ("/api/proxy?url=" ++ encodeURIComponent (resolveUrl href baseUrl)))
          "target" "_parent"
      else a
    | none => a
  else a

/-- The img[src] pass of processHtml (src/server.js lines 159-165):
every nonempty src is rewritten, with no data: exemption. -/
def updImgRes (baseUrl tag : String) (a : List (String × String)) : List (String × String) :=
  if tag = "img" then
    match getAttr a "src" with
    | some src =>
      if src ≠ "" then
        setAttr a "src" ("/api/proxy?url=" ++ encodeURIComponent (resolveUrl src baseUrl))
      else a
    | none => a
  else a

/-- The link[rel="stylesheet"] pass, identical in both modes
(src/server.js lines 168-174 and 392-398).  The attribute value match
is case-insensitive, as css-select treats rel in HTML documents. -/
def updLink (baseUrl tag : String) (a : List (String × String)) : List (String × String) :=
  if tag = "link" &&
      (match getAttr a "rel" with
        | some r => lowerStr r.data == "stylesheet".data
        | none => false) then
    match getAttr a "href" with
    | some href =>
      if href ≠ "" then
        setAttr a "href" ("/api/proxy?url=" ++ encodeURIComponent (resolveUrl href baseUrl))
      else a
    | none => a
  else a

/-- The script[src] pass, identical in both modes (src/server.js
lines 177-183 and 400-406). -/
def updScript (baseUrl tag : String) (a : List (String × String)) : List (String × String) :=
  if tag = "script" then
    match getAttr a "src" with
    | some src =>
      if src ≠ "" then
        setAttr a "src" ("/api/proxy?url=" ++ encodeURIComponent (resolveUrl src baseUrl))
      else a
    | none => a
  else a

/-- The form[action] pass of processHtml (src/server.js lines
186-192). -/
def updFormRes (baseUrl tag : String) (a : List (String × String)) : List (String × String) :=
  if tag = "form" then
    match getAttr a "action" with
    | some act =>
      if act ≠ "" then
        setAttr a "action" ("/api/proxy?url=" ++ encodeURIComponent (resolveUrl act baseUrl))
      else a
    | none => a
  else a

/-- The a[href] pass of processHtmlForFullPage (src/server.js lines
375-381): anchors go to the page-mode endpoint; javascript: and
fragment hrefs are left untouched. -/
def updAPage (baseUrl tag : String) (a : List (String × String)) : List (String × String) :=
  if tag = "a" then
    match getAttr a "href" with
    | some href =>
      if (href != "") && !jsStartsWith href "javascript:" && !jsStartsWith href "#" then
        setAttr a "href" ("/proxy-page?url=" ++ encodeURIComponent (resolveUrl href baseUrl))
      else a
    | none => a
  else a

/-- The img[src] pass of processHtmlForFullPage (src/server.js lines
384-390): a data: src is left unchanged. -/
def updImgPage (baseUrl tag : String) (a : List (String × String)) : List (String × String) :=
  if tag = "img" then
    match getAttr a "src" with
    | some src =>
      if (src != "") && !jsStartsWith src "data:" then
        setAttr a "src" ("/api/proxy?url=" ++ encodeURIComponent (resolveUrl src baseUrl))
      else a
    | none => a
  else a

/-- The form[action] pass of processHtmlForFullPage (src/server.js
lines 409-415): forms go to the page-mode endpoint; javascript:
actions are left untouched. -/
def updFormPage (baseUrl tag : String) (a : List (String × String)) : List (String × String) :=
  if tag = "form" then
    match getAttr a "action" with
    | some act =>
      if (act != "") && !jsStartsWith act "javascript:" then
        setAttr a "action" ("/proxy-page?url=" ++ encodeURIComponent (resolveUrl act baseUrl))
      else a
    | none => a
  else a

/-- The helper script text injected by processHtml (src/server.js
lines 200-214); template whitespace and the comments are elided, the
interpolations are kept. -/
def proxyHelperJs (baseHost baseUrl : String) : String :=
  "window.PROXY_BASE_URL = '" ++ baseHost ++ "'; window.PROXY_CURRENT_URL = '" ++ baseUrl ++
    "'; window.open = function(url, name, specs) \x7b if (url) \x7b window.location.href = " ++
    "'/api/proxy?url=' + encodeURIComponent(url); \x7d return null; \x7d;"

/-- The navigation chrome prepended to body by processHtmlForFullPage
(src/server.js lines 355-370), as one opaque snippet with its inline
styling elided and the baseUrl interpolation kept. -/
def proxyBarHtml (baseUrl : String) : String :=
  "<div>🛡️ <strong>SecureProxy</strong> - 현재 접속: <span>" ++ baseUrl ++
    "</span><a href=\"/\">홈으로</a>" ++
    "<button onclick=\"window.location.reload()\">새로고침</button></div>" ++
    "<div style=\"height: 50px;\"></div>"

/-- src/server.js lines 143-217 (processHtml): the resource-mode HTML
rewrite.  new URL(baseUrl) on line 145 throws on a bad base (none
here); the five selector passes run in source order; then a base
element pointing at baseHost is prepended to head when the document
has no base element, and the helper script is appended to head.
Markup parsing and serialization ($.html()) are outside the model,
which operates on the document tree. -/
def processHtml (doc : HtmlDoc) (baseUrl : String) : Option HtmlDoc :=
  match parseUrl baseUrl with
  | none => none
  | some u =>
    let baseHost := baseHostOf u
    let d1 := mapDoc (updARes baseUrl) doc
    let d2 := mapDoc (updImgRes baseUrl) d1
    let d3 := mapDoc (updLink baseUrl) d2
    let d4 := mapDoc (updScript baseUrl) d3
    let d5 := mapDoc (updFormRes baseUrl) d4
    let baseNode := HNode.elem "base" [("href", baseHost ++ "/")] HNodeList.nil
    let scriptNode := HNode.elem "script" []
      (HNodeList.cons (HNode.text (proxyHelperJs baseHost baseUrl)) HNodeList.nil)
    let d6 :=
      if countTagDoc "base" d5 = 0 then { d5 with head := HNodeList.cons baseNode d5.head }
      else d5
    some { d6 with head := appendL d6.head scriptNode }

/-- src/server.js lines 349-418 (processHtmlForFullPage): the
page-mode HTML rewrite.  new URL(baseUrl) on line 351 throws on a bad
base; the chrome snippet is prepended to body (kept opaque: its own
home anchor is not re-examined by the passes, and nothing proved here
depends on it); then the five selector passes run in source order.
No base element is ever inserted on this path.  (The source computes
baseHost on line 352 but never uses it.) -/
def processHtmlForFullPage (doc : HtmlDoc) (baseUrl : String) : Option HtmlDoc :=
  match parseUrl baseUrl with
  | none => none
  | some _ =>
    let d0 := { doc with body := HNodeList.cons (HNode.raw (proxyBarHtml baseUrl)) doc.body }
    let d1 := mapDoc (updAPage baseUrl) d0
    let d2 := mapDoc (updImgPage baseUrl) d1
    let d3 := mapDoc (updLink baseUrl) d2
    let d4 := mapDoc (updScript baseUrl) d3
    some (mapDoc (updFormPage baseUrl) d4)

/-- The five page-mode passes as one per-element attribute update
(their sequential composition; the passes touch disjoint tags). -/
def pageElemUpdate (baseUrl tag : String) (a : List (String × String)) :
    List (String × String) :=
  updFormPage baseUrl tag (updScript baseUrl tag (updLink baseUrl tag
    (updImgPage baseUrl tag (updAPage baseUrl tag a))))

/-- The five resource-mode passes as one per-element attribute
update. -/
def resElemUpdate (baseUrl tag : String) (a : List (String × String)) :
    List (String × String) :=
  updFormRes baseUrl tag (updScript baseUrl tag (updLink baseUrl tag
    (updImgRes baseUrl tag (updARes baseUrl tag a))))

mutual
/-- A selector pass only edits attributes, so tag counts survive it. -/
theorem countTagN_mapN (f : String → List (String × String) → List (String × String))
    (tag : String) : (n : HNode) → countTagN tag (mapN f n) = countTagN tag n
  | .elem t a c => by
    simp only [mapN, countTagN]
    rw [countTagL_mapL f tag c]
  | .text s => rfl
  | .raw s => rfl

/-- countTagN_mapN over a sibling list. -/
theorem countTagL_mapL (f : String → List (String × String) → List (String × String))
    (tag : String) : (l : HNodeList) → countTagL tag (mapL f l) = countTagL tag l
  | .nil => rfl
  | .cons n ns => by
    simp only [mapL, countTagL]
    rw [countTagN_mapN f tag n, countTagL_mapL f tag ns]
end

/-- A selector pass preserves tag counts on the whole document. -/
theorem countTagDoc_mapDoc (f : String → List (String × String) → List (String × String))
    (tag : String) (d : HtmlDoc) : countTagDoc tag (mapDoc f d) = countTagDoc tag d := by
  simp only [countTagDoc, mapDoc]
  rw [countTagL_mapL, countTagL_mapL]


/-- C1 counterexample: the claim says a page-mode request for a URL
whose hostname contains a blocklisted substring gets a rendered
403-style error page and the upstream is not fetched.  The page-mode
handler performs no blocklist check at all: at the blocked yet
well-formed URL http://malware-site.com/ the precheck proceeds
straight to the upstream fetch instead of an error page. -/
theorem c1_counterexample :
    isBlockedUrl "http://malware-site.com/" = true ∧
    proxyPagePrecheck (some "http://malware-site.com/") =
      PageOutcome.fetchUpstream "http://malware-site.com/" := by decide

/-- C1 (amended): the page-mode entry point never consults the
blocklist: every well-formed http(s) target URL — one with a
blocklisted hostname included — proceeds to the upstream fetch, and
only a missing or invalid URL yields the rendered 400 error page.
Blocklist enforcement exists only in resource mode. -/
theorem c1_page_mode_skips_blocklist (u : String) (h : isValidUrl u = true) :
    proxyPagePrecheck (some u) = PageOutcome.fetchUpstream u := by
  have hu : ¬ (u = "") := by
    intro he
    rw [he] at h
    exact absurd h (by decide)
  simp [proxyPagePrecheck, hu, h]

/-- C1 witness: the amended theorem at the blocked URL. -/
theorem c1_page_mode_skips_blocklist_w :
    proxyPagePrecheck (some "http://malware-site.com/") =
      PageOutcome.fetchUpstream "http://malware-site.com/" :=
  c1_page_mode_skips_blocklist "http://malware-site.com/" (by decide)

/-- C2 counterexample: the claim says an upstream response with
status ≥ 500 is returned to the client as a normal response.  The
resource-mode config's validateStatus is `status < 500`, so a 500
response is rejected by the transport and never returned normally. -/
theorem c2_counterexample :
    upstreamReturnedAsNormal 500 = false ∧ validateStatus 500 = false := by decide

/-- C2 (amended): an upstream response is returned as a normal
response iff its status is < 500 (so every 4xx and 3xx passes
through); a status ≥ 500 makes the fetch reject, and the catch block —
whose error has none of the three recognized transport codes — then
replies with the generic 500 JSON error instead of the upstream's own
body. -/
theorem c2_upstream_5xx_rejected (s : Nat) :
    (upstreamReturnedAsNormal s = true ↔ s < 500) ∧
    (500 ≤ s → upstreamReturnedAsNormal s = false) ∧
    apiProxyCatch (some "ERR_BAD_RESPONSE") = (500, "웹사이트를 로드할 수 없습니다.") := by
  refine ⟨?_, ?_, by decide⟩
  · simp [upstreamReturnedAsNormal, validateStatus]
  · intro hle
    simp [upstreamReturnedAsNormal, validateStatus]
    omega

/-- C2 witness: the amended theorem at status 502. -/
theorem c2_upstream_5xx_rejected_w : upstreamReturnedAsNormal 502 = false :=
  (c2_upstream_5xx_rejected 502).2.1 (by decide)

/-- C3 counterexample: the claim says both rewriters insert a base
element when the document has none.  The page-mode rewriter does not:
a base-free document is rewritten into a document still containing
zero base elements. -/
theorem c3_counterexample :
    countTagDoc "base"
      ⟨HNodeList.nil, HNodeList.cons (HNode.elem "p" [] HNodeList.nil) HNodeList.nil⟩ = 0 ∧
    Option.map (countTagDoc "base")
      (processHtmlForFullPage
        ⟨HNodeList.nil, HNodeList.cons (HNode.elem "p" [] HNodeList.nil) HNodeList.nil⟩
        "http://example.com/") = some 0 := by decide

/-- C3 (amended): only the resource-mode rewriter inserts a base
element.  When the input document has no base element, processHtml
makes <base href="baseHost/"> the first child of head; on the same
hypothesis-free page-mode path, processHtmlForFullPage preserves the
number of base elements, so it never inserts one. -/
theorem c3_base_insertion_resource_only :
    (∀ (doc : HtmlDoc) (b : String) (u : UrlRec), parseUrl b = some u →
      countTagDoc "base" doc = 0 →
      Option.map headFirst (processHtml doc b) =
        some (some (HNode.elem "base" [("href", baseHostOf u ++ "/")] HNodeList.nil))) ∧
    (∀ (doc d : HtmlDoc) (b : String), processHtmlForFullPage doc b = some d →
      countTagDoc "base" d = countTagDoc "base" doc) := by
  constructor
  · intro doc b u hp h0
    simp only [processHtml, hp, countTagDoc_mapDoc, h0, if_pos]
    simp [headFirst, appendL]
  · intro doc d b hp2
    cases hq : parseUrl b with
    | none => rw [processHtmlForFullPage, hq] at hp2; cases hp2
    | some u =>
      simp only [processHtmlForFullPage, hq, Option.some.injEq] at hp2
      subst hp2
      rw [countTagDoc_mapDoc, countTagDoc_mapDoc, countTagDoc_mapDoc, countTagDoc_mapDoc,
        countTagDoc_mapDoc]
      simp [countTagDoc, countTagL, countTagN]

/-- C3 witness: the amended theorem at a concrete base-free document
and base URL. -/
theorem c3_base_insertion_resource_only_w :
    Option.map headFirst (processHtml ⟨HNodeList.nil, HNodeList.nil⟩ "http://example.com/") =
      some (some (HNode.elem "base"
        [("href", baseHostOf ⟨"http", true, "example.com", none, true, [""], "", none, none⟩
            ++ "/")] HNodeList.nil)) :=
  c3_base_insertion_resource_only.1 ⟨HNodeList.nil, HNodeList.nil⟩ "http://example.com/"
    ⟨"http", true, "example.com", none, true, [""], "", none, none⟩ (by decide) (by decide)

/-- C4: the resource-mode failure statuses follow the claimed
taxonomy: a malformed or non-http(s) URL gets the 400 JSON error, a
valid but blocklisted URL gets 403, and the catch block maps
ENOTFOUND (DNS failure) to 404, ECONNREFUSED to 503, ETIMEDOUT to
408, and every other error code to 500. -/
theorem c4_resource_error_status_mapping :
    (∀ u : String, isValidUrl u = false →
      ∃ m, apiProxyPrecheck (some u) = some (400, m)) ∧
    (∀ u : String, isValidUrl u = true → isBlockedUrl u = true →
      ∃ m, apiProxyPrecheck (some u) = some (403, m)) ∧
    (apiProxyCatch (some "ENOTFOUND")).1 = 404 ∧
    (apiProxyCatch (some "ECONNREFUSED")).1 = 503 ∧
    (apiProxyCatch (some "ETIMEDOUT")).1 = 408 ∧
    (∀ c : Option String, c ≠ some "ENOTFOUND" → c ≠ some "ECONNREFUSED" →
      c ≠ some "ETIMEDOUT" → (apiProxyCatch c).1 = 500) := by
  refine ⟨?_, ?_, by decide, by decide, by decide, ?_⟩
  · intro u h
    by_cases he : u = ""
    · exact ⟨"유효하지 않은 URL입니다.", by simp [apiProxyPrecheck, he]⟩
    · exact ⟨"유효하지 않은 URL입니다.", by simp [apiProxyPrecheck, he, h]⟩
  · intro u hv hb
    have hu : ¬ (u = "") := by
      intro he
      rw [he] at hv
      exact absurd hv (by decide)
    exact ⟨"이 URL은 차단되었습니다.", by simp [apiProxyPrecheck, hu, hv, hb]⟩
  · intro c h1 h2 h3
    unfold apiProxyCatch
    rw [if_neg h1, if_neg h2, if_neg h3]

/-- C4 witness: the mapping exercised at a malformed URL, a blocked
URL and an unrecognized transport error code. -/
theorem c4_resource_error_status_mapping_w :
    (∃ m, apiProxyPrecheck (some "notaurl") = some (400, m)) ∧
    (∃ m, apiProxyPrecheck (some "http://malware-site.com/") = some (403, m)) ∧
    (apiProxyCatch (some "EAI_AGAIN")).1 = 500 :=
  ⟨c4_resource_error_status_mapping.1 "notaurl" (by decide),
   c4_resource_error_status_mapping.2.1 "http://malware-site.com/" (by decide) (by decide),
   c4_resource_error_status_mapping.2.2.2.2.2 (some "EAI_AGAIN") (by decide) (by decide)
     (by decide)⟩

/-- C5 counterexample: the claim says an already absolute reference is
returned unchanged.  The URL constructor reserializes in normalized
form: the absolute reference "http://example.com" resolves to
"http://example.com/" (the root path is made explicit), which differs
from the reference itself. -/
theorem c5_counterexample :
    resolveUrl "http://example.com" "http://base.org/" = "http://example.com/" ∧
    resolveUrl "http://example.com" "http://base.org/" ≠ "http://example.com" := by decide

/-- C5 (amended): when the reference parses as an absolute URL and the
base parses, resolveUrl returns the WHATWG serialization of the
reference — independent of the base, but normalized, hence not always
the reference verbatim; whenever the URL constructor fails (malformed
reference that also fails relative resolution, or a malformed base),
resolveUrl returns the reference unchanged — the try/catch makes it
total, so it never throws. -/
theorem c5_resolve_normalizes :
    (∀ (r b sch : String) (rest : List Char) (u : UrlRec),
      splitScheme r = some (sch, rest) → parseAfterScheme sch rest = some u →
      parseUrl b ≠ none → resolveUrl r b = serializeUrl u) ∧
    (∀ r b : String, newURL r b = none → resolveUrl r b = r) := by
  constructor
  · intro r b sch rest u hs hp hb
    have hn : newURL r b = some u := by
      cases hq : parseUrl b with
      | none => exact absurd hq hb
      | some bb => simp only [newURL, hq, hs]; exact hp
    unfold resolveUrl
    rw [hn]
  · intro r b hn
    unfold resolveUrl
    rw [hn]

/-- C5 witness: the amended theorem at an absolute reference (host
case normalized, root slash added) and at a malformed base. -/
theorem c5_resolve_normalizes_w :
    resolveUrl "http://EXAMPLE.com" "http://base.org/" =
      serializeUrl ⟨"http", true, "example.com", none, true, [""], "", none, none⟩ ∧
    resolveUrl "pic.png" "notaurl" = "pic.png" :=
  ⟨c5_resolve_normalizes.1 "http://EXAMPLE.com" "http://base.org/" "http"
      "//EXAMPLE.com".data ⟨"http", true, "example.com", none, true, [""], "", none, none⟩
      (by decide) (by decide) (by decide),
   c5_resolve_normalizes.2 "pic.png" "notaurl" (by decide)⟩

/-- C6: isValidUrl is true iff the input parses as a URL whose
protocol is http: or https:, and unparseable input gives false (the
try/catch turns the constructor throw into false). -/
theorem c6_isValid_iff (s : String) :
    (isValidUrl s = true ↔
      ∃ u, parseUrl s = some u ∧ (protocolOf u = "http:" ∨ protocolOf u = "https:")) ∧
    (parseUrl s = none → isValidUrl s = false) := by
  constructor
  · cases hp : parseUrl s with
    | none => simp [isValidUrl, hp]
    | some u => simp [isValidUrl, hp, List.contains, List.elem_eq_mem]
  · intro hn
    simp [isValidUrl, hn]

/-- C6 witness: both directions exercised: a non-http(s) scheme is
rejected, an unparseable input returns false rather than throwing. -/
theorem c6_isValid_iff_w :
    isValidUrl "notaurl" = false ∧
    (∃ u, parseUrl "https://ok.example/" = some u ∧
      (protocolOf u = "http:" ∨ protocolOf u = "https:")) :=
  ⟨(c6_isValid_iff "notaurl").2 (by decide),
   (c6_isValid_iff "https://ok.example/").1.mp (by decide)⟩

/-- C7: isBlockedUrl is true iff the input parses and its hostname
contains some blocklisted substring; unparseable input gives false
(fails open). -/
theorem c7_isBlocked_iff (s : String) :
    (isBlockedUrl s = true ↔
      ∃ u, parseUrl s = some u ∧
        ∃ d ∈ blockedDomains, strContains (hostnameOf u) d = true) ∧
    (parseUrl s = none → isBlockedUrl s = false) := by
  constructor
  · cases hp : parseUrl s with
    | none => simp [isBlockedUrl, hp]
    | some u => simp [isBlockedUrl, hp, List.any_eq_true]
  · intro hn
    simp [isBlockedUrl, hn]

/-- C7 witness: a URL whose hostname strictly contains a blocklisted
substring is blocked; an unparseable input is not blocked. -/
theorem c7_isBlocked_iff_w :
    isBlockedUrl "notaurl" = false ∧
    (∃ u, parseUrl "http://a.malware-site.com/" = some u ∧
      ∃ d ∈ blockedDomains, strContains (hostnameOf u) d = true) :=
  ⟨(c7_isBlocked_iff "notaurl").2 (by decide),
   (c7_isBlocked_iff "http://a.malware-site.com/").1.mp (by decide)⟩

/-- C8: a url(...) occurrence whose inner value starts with "data:"
or with "http" is replaced by the matched text itself; consequently,
on a stylesheet all of whose url(...) occurrences are such, the CSS
rewriter is the identity, and rerunning it on its own output changes
nothing. -/
theorem c8_css_exempt_idempotent :
    (∀ matched quote url baseUrl : String,
      (jsStartsWith url "data:" || jsStartsWith url "http") = true →
      cssReplace matched quote url baseUrl = matched) ∧
    (∀ css b : String, cssAllExempt css = true →
      processCss css b = css ∧ processCss (processCss css b) b = processCss css b) := by
  constructor
  · intro m q url b h
    unfold cssReplace
    rw [if_pos h]
  · intro css b h
    have h1 : processCss css b = css := by
      unfold processCss
      rw [scanCss_exempt b _ _ h]
    exact ⟨h1, by rw [h1, h1]⟩

/-- C8 witness: the per-match exemption and the idempotence at a
stylesheet with one data: and one http url argument. -/
theorem c8_css_exempt_idempotent_w :
    cssReplace "url(data:x)" "" "data:x" "http://e.com/" = "url(data:x)" ∧
    processCss "a\x7bb:url(data:x); c:url('http://y/z')\x7d" "http://e.com/" =
      "a\x7bb:url(data:x); c:url('http://y/z')\x7d" :=
  ⟨c8_css_exempt_idempotent.1 "url(data:x)" "" "data:x" "http://e.com/" (by decide),
   (c8_css_exempt_idempotent.2 "a\x7bb:url(data:x); c:url('http://y/z')\x7d" "http://e.com/"
     (by decide)).1⟩

/-- C9: every page-mode fetch failure is answered with HTTP status
500 — the page-mode catch never inspects the error code — while the
per-category status mapping (404, 503, 408) exists only in the
resource-mode catch. -/
theorem c9_page_mode_error_status_500 (url errMsg : String) :
    (proxyPageCatch url errMsg).1 = 500 ∧
    (apiProxyCatch (some "ENOTFOUND")).1 = 404 ∧
    (apiProxyCatch (some "ECONNREFUSED")).1 = 503 ∧
    (apiProxyCatch (some "ETIMEDOUT")).1 = 408 :=
  ⟨rfl, by decide, by decide, by decide⟩

/-- C10: in page-mode rewriting, an img element whose src starts with
"data:" passes through all five selector passes unchanged; the
resource-mode passes have no such exemption — the same element gets
its src wrapped into the resource endpoint.  The last conjunct ties
the composed per-element update to the full page-mode transform. -/
theorem c10_img_data_exemption_page_only :
    (∀ (b : String) (a : List (String × String)) (s : String),
      getAttr a "src" = some s → jsStartsWith s "data:" = true →
      pageElemUpdate b "img" a = a) ∧
    (∀ (b : String) (a : List (String × String)) (s : String),
      getAttr a "src" = some s → s ≠ "" → jsStartsWith s "data:" = true →
      resElemUpdate b "img" a =
        setAttr a "src" ("/api/proxy?url=" ++ encodeURIComponent (resolveUrl s b))) ∧
    (∀ (doc : HtmlDoc) (b : String) (u : UrlRec), parseUrl b = some u →
      processHtmlForFullPage doc b =
        some (mapDoc (updFormPage b) (mapDoc (updScript b) (mapDoc (updLink b)
          (mapDoc (updImgPage b) (mapDoc (updAPage b)
            ⟨doc.head, HNodeList.cons (HNode.raw (proxyBarHtml b)) doc.body⟩)))))) := by
  refine ⟨?_, ?_, ?_⟩
  · intro b a s h1 h2
    simp [pageElemUpdate, updAPage, updImgPage, updLink, updScript, updFormPage, h1, h2]
  · intro b a s h1 h2 h3
    simp [resElemUpdate, updARes, updImgRes, updLink, updScript, updFormRes, h1, h2]
  · intro doc b u hp
    simp [processHtmlForFullPage, hp]

/-- C10 witness: a data: image is untouched by the page-mode update
and rewritten by the resource-mode update; the composition fact at a
concrete document. -/
theorem c10_img_data_exemption_page_only_w :
    pageElemUpdate "http://e.com/" "img" [("src", "data:image/png;base64,AA")] =
      [("src", "data:image/png;base64,AA")] ∧
    resElemUpdate "http://e.com/" "img" [("src", "data:image/png;base64,AA")] =
      setAttr [("src", "data:image/png;base64,AA")] "src"
        ("/api/proxy?url=" ++
          encodeURIComponent (resolveUrl "data:image/png;base64,AA" "http://e.com/")) ∧
    processHtmlForFullPage ⟨HNodeList.nil, HNodeList.nil⟩ "http://e.com/" =
      some (mapDoc (updFormPage "http://e.com/") (mapDoc (updScript "http://e.com/")
        (mapDoc (updLink "http://e.com/") (mapDoc (updImgPage "http://e.com/")
          (mapDoc (updAPage "http://e.com/")
            ⟨HNodeList.nil, HNodeList.cons (HNode.raw (proxyBarHtml "http://e.com/"))
              HNodeList.nil⟩))))) :=
  ⟨c10_img_data_exemption_page_only.1 "http://e.com/" [("src", "data:image/png;base64,AA")]
      "data:image/png;base64,AA" (by decide) (by decide),
   c10_img_data_exemption_page_only.2.1 "http://e.com/" [("src", "data:image/png;base64,AA")]
      "data:image/png;base64,AA" (by decide) (by decide) (by decide),
   c10_img_data_exemption_page_only.2.2 ⟨HNodeList.nil, HNodeList.nil⟩ "http://e.com/"
      ⟨"http", true, "e.com", none, true, [""], "", none, none⟩ (by decide)⟩
